import Mathlib

/-!
Verification of the context-scoped, multi-sink log routing subsystem of
`aurimyth/foundation_kit/common/logging/__init__.py`.

The Python module is embedded shallowly: the module-level mutable state
(`_service_context`, `_trace_id_var`, `_log_config`, the loguru sink list)
becomes explicit state threaded through the functions; loguru's record,
level, filter and sink semantics are modelled to the extent the module
relies on them.  Randomness (`uuid.uuid4()`) is modelled by passing the
random 128-bit draw as an explicit argument.
-/

namespace FoundationKit

/-- Loguru's standard severity levels used by this module
(DEBUG/INFO/WARNING/ERROR/CRITICAL). -/
inductive Level where
  | DEBUG
  | INFO
  | WARNING
  | ERROR
  | CRITICAL
deriving DecidableEq

/-- `record["level"].name` in loguru. -/
def Level.lname : Level → String
  | .DEBUG => "DEBUG"
  | .INFO => "INFO"
  | .WARNING => "WARNING"
  | .ERROR => "ERROR"
  | .CRITICAL => "CRITICAL"

/-- `record["level"].no`: loguru's numeric severity of each level. -/
def Level.no : Level → Nat
  | .DEBUG => 10
  | .INFO => 20
  | .WARNING => 30
  | .ERROR => 40
  | .CRITICAL => 50

/-- Numeric severity loguru associates with a level name passed as the
`level=` argument of `logger.add` (unknown names rejected; modelled as 0). -/
def levelNo (s : String) : Nat :=
  if s = "TRACE" then 5
  else if s = "DEBUG" then 10
  else if s = "INFO" then 20
  else if s = "SUCCESS" then 25
  else if s = "WARNING" then 30
  else if s = "ERROR" then 40
  else if s = "CRITICAL" then 50
  else 0

/-- A value stored in a record's extra-attributes dict.  The module only
ever stores strings (`trace_id`, `service`) and booleans (filter keys such
as `access`), so those two cases suffice. -/
inductive ExtraVal where
  | str (s : String)
  | bool (b : Bool)
deriving DecidableEq

/-- Python truthiness of an extra value (`bool(v)`): a string is truthy iff
non-empty, a bool is itself. -/
def ExtraVal.truthy : ExtraVal → Bool
  | .str s => !(s = "")
  | .bool b => b

/-- Python `v == c` where `c` is a string: only equal strings compare
equal; a bool never equals a string. -/
def ExtraVal.eqStr : ExtraVal → String → Bool
  | .str s, c => s = c
  | .bool _, _ => false

/-- The record's extra-attributes dict, keys unique, insertion order kept. -/
abbrev Extra := List (String × ExtraVal)

/-- `record["extra"].get(key, False)` evaluated for truthiness: absent key
defaults to `False`, hence falsy. -/
def extraTruthy (e : Extra) (k : String) : Bool :=
  match e.lookup k with
  | some v => v.truthy
  | none => false

/-- `record["extra"].get(key) == c` for a string `c`: `None == c` is `False`. -/
def extraEqStr (e : Extra) (k : String) (c : String) : Bool :=
  match e.lookup k with
  | some v => v.eqStr c
  | none => false

/-- `extra[key] = v` (one step of `dict.update`): overwrite the existing
binding in place, else append. -/
def extraSet : Extra → String → ExtraVal → Extra
  | [], k, v => [(k, v)]
  | (a, b) :: t, k, v =>
    if a = k then (a, v) :: t else (a, b) :: extraSet t k v

/-- A loguru log record as this module consumes it: timestamp, level,
source location (`name:function:line`), message and extra-attributes. -/
structure Record where
  time : String
  level : Level
  name : String
  function : String
  line : Nat
  message : String
  extra : Extra
deriving DecidableEq

/-- `ServiceContext(str, Enum)` with members API/SCHEDULER/WORKER. -/
inductive ServiceContext where
  | api
  | scheduler
  | worker
deriving DecidableEq

/-- The `.value` of each enum member. -/
def ServiceContext.value : ServiceContext → String
  | .api => "api"
  | .scheduler => "scheduler"
  | .worker => "worker"

/-- `ServiceContext(val)` for a string: the member whose value matches,
else a `ValueError` (modelled as `none`). -/
def serviceContextOfValue (s : String) : Option ServiceContext :=
  if s = "api" then some .api
  else if s = "scheduler" then some .scheduler
  else if s = "worker" then some .worker
  else none

/-- The `ServiceContext | str` argument accepted by `_to_service_context`,
`set_service_context` and `setup_logging`. -/
inductive CtxArg where
  | ofCtx (c : ServiceContext)
  | ofStr (s : String)
deriving DecidableEq

/-- Python `str.lower` on one character, for the ASCII range the module's
context names live in. -/
def pyLowerChar (c : Char) : Char :=
  if 'A' ≤ c ∧ c ≤ 'Z' then Char.ofNat (c.toNat + 32) else c

/-- Python `str.lower` (ASCII range). -/
def pyLower (s : String) : String := String.mk (s.data.map pyLowerChar)

/-- Python `str.strip`'s notion of whitespace (ASCII range). -/
def isPySpace (c : Char) : Bool :=
  c = ' ' || c = '\t' || c = '\n' || c = '\r' || c = '\x0b' || c = '\x0c'

/-- Python `str.strip` (ASCII range): drop leading and trailing whitespace. -/
def pyStrip (s : String) : String :=
  String.mk (((s.data.dropWhile isPySpace).reverse.dropWhile isPySpace).reverse)

/-- `_to_service_context`: an enum passes through; a string is stripped and
lowercased, the legacy alias `app` rewritten to `api`, then looked up as an
enum value, any `ValueError` caught and replaced by the `api` default. -/
def toServiceContext : CtxArg → ServiceContext
  | .ofCtx c => c
  | .ofStr s =>
    let val := pyLower (pyStrip s)
    let val := if val = "app" then ServiceContext.api.value else val
    (serviceContextOfValue val).getD .api

/-- The per-logical-task context store.  The Python module keeps these two
values in `contextvars.ContextVar`s, whose semantics is that each logical
task reads and writes its own slot; `Ctx` is one task's slot, with the
`ContextVar` defaults as initial values (`api`, `""`). -/
structure Ctx where
  service : ServiceContext
  traceId : String
deriving DecidableEq

/-- Initial value of a task's context store: the `ContextVar` defaults. -/
def Ctx.initial : Ctx := { service := .api, traceId := "" }

/-- `get_service_context()`. -/
def get_service_context (st : Ctx) : ServiceContext := st.service

/-- `set_service_context(context)`. -/
def set_service_context (context : CtxArg) (st : Ctx) : Ctx :=
  { st with service := toServiceContext context }

/-- `set_trace_id(trace_id)`. -/
def set_trace_id (trace_id : String) (st : Ctx) : Ctx :=
  { st with traceId := trace_id }

/-- Lowercase hex digits, as `uuid.UUID.__str__` prints them. -/
def hexDigit (n : Nat) : Char :=
  if n = 0 then '0' else if n = 1 then '1' else if n = 2 then '2'
  else if n = 3 then '3' else if n = 4 then '4' else if n = 5 then '5'
  else if n = 6 then '6' else if n = 7 then '7' else if n = 8 then '8'
  else if n = 9 then '9' else if n = 10 then 'a' else if n = 11 then 'b'
  else if n = 12 then 'c' else if n = 13 then 'd' else if n = 14 then 'e'
  else 'f'

/-- Fixed-width big-endian hex rendering of `n`, exactly `w` digits. -/
def hexChars : Nat → Nat → List Char
  | _, 0 => []
  | n, w + 1 => hexChars (n / 16) w ++ [hexDigit (n % 16)]

/-- `str(uuid.UUID(int=n))`: the canonical 8-4-4-4-12 hyphenated lowercase
hex form of the 128-bit value `n`.  `uuid.uuid4()` draws `n` at random (with
the version/variant bits forced, which does not change the shape). -/
def uuidStr (n : Nat) : String :=
  let n := n % 2 ^ 128
  String.mk (hexChars (n / 2 ^ 96) 8 ++ ['-']
    ++ hexChars (n / 2 ^ 80 % 2 ^ 16) 4 ++ ['-']
    ++ hexChars (n / 2 ^ 64 % 2 ^ 16) 4 ++ ['-']
    ++ hexChars (n / 2 ^ 48 % 2 ^ 16) 4 ++ ['-']
    ++ hexChars (n % 2 ^ 48) 12)

/-- `get_trace_id()`: return the stored trace id, generating, storing and
returning a fresh random UUID when the stored value is falsy (empty).
`fresh` is the 128-bit value the random source would produce. -/
def get_trace_id (fresh : Nat) (st : Ctx) : String × Ctx :=
  let trace_id := st.traceId
  if trace_id = "" then
    let trace_id := uuidStr fresh
    (trace_id, { st with traceId := trace_id })
  else
    (trace_id, st)

/-- The filter closure attached to a sink, represented by its captured
data (each closure in the source is determined by its captures). -/
inductive SinkFilter where
  | nofilter
  | serviceInfo (c : String)
  | serviceError (c : String)
  | key (k : String)
deriving DecidableEq

/-- Evaluation of the filter closures of the source.
`serviceInfo c` is the INFO-tier file-sink filter built in `setup_logging`:
service matches, level not ERROR/CRITICAL, not marked for the access
stream.  `serviceError c` is the ERROR-tier file-sink filter: service
matches.  `key k` is the `filter_key` closure of `register_log_sink`:
the key's value in extra, defaulting to `False`. -/
def SinkFilter.accepts : SinkFilter → Record → Bool
  | .nofilter, _ => true
  | .serviceInfo c, record =>
    extraEqStr record.extra "service" c
      && !(record.level.lname = "ERROR" || record.level.lname = "CRITICAL")
      && !(extraTruthy record.extra "access")
  | .serviceError c, record => extraEqStr record.extra "service" c
  | .key k, record => extraTruthy record.extra k

/-- One configured sink: target path, minimum severity, rotation and
retention arguments, filter, and whether it writes to a file. -/
structure Sink where
  path : String
  levelMin : Nat
  rotation : String
  retention : String
  filter : SinkFilter
  isFile : Bool
deriving DecidableEq

/-- Loguru sink dispatch: a record reaches the sink's writer iff its
severity is at least the sink's and the sink's filter accepts it. -/
def Sink.accepts (s : Sink) (r : Record) : Bool :=
  decide (s.levelMin ≤ r.level.no) && s.filter.accepts r

/-- The module-level `_log_config` dict. -/
structure LogConfig where
  log_dir : String
  rotation : String
  retention_days : Nat
  file_format : String
  initialized : Bool
deriving DecidableEq

/-- `_log_config` as initialized at import time. -/
def LogConfig.initial : LogConfig :=
  { log_dir := "logs", rotation := "00:00", retention_days := 7,
    file_format := "", initialized := false }

/-- The logging system's mutable state: loguru's sink list plus
`_log_config`.  At import time the sink list is empty (`logger.remove()`
runs at module load). -/
structure LogSystem where
  sinks : List Sink
  config : LogConfig
deriving DecidableEq

/-- State at module import: no sinks, default config. -/
def LogSystem.initial : LogSystem :=
  { sinks := [], config := LogConfig.initial }

/-- The `file_format` template string built in `setup_logging`. -/
def fileFormatTemplate : String :=
  "\x7btime:YYYY-MM-DD HH:mm:ss\x7d | \x7blevel: <8\x7d | \x7bname\x7d:\x7bfunction\x7d:\x7bline\x7d | \x7bextra[trace_id]\x7d - \x7bmessage\x7d"

/-- The INFO-tier file sink `setup_logging` adds for context `ctx`:
dated path when rotation is enabled, plain path otherwise; minimum level
is the configured `log_level`. -/
def infoFileSink (log_level log_dir : String) (enable_file_rotation : Bool)
    (rotation : String) (retention_days : Nat) (ctx : String) : Sink :=
  { path :=
      if enable_file_rotation then
        log_dir ++ "/" ++ ctx ++ "_info_\x7btime:YYYY-MM-DD\x7d.log"
      else
        log_dir ++ "/" ++ ctx ++ "_info.log",
    levelMin := levelNo log_level,
    rotation := rotation,
    retention := toString retention_days ++ " days",
    filter := .serviceInfo ctx,
    isFile := true }

/-- The ERROR-tier file sink `setup_logging` adds for context `ctx`:
minimum level is ERROR. -/
def errorFileSink (log_dir : String) (enable_file_rotation : Bool)
    (rotation : String) (retention_days : Nat) (ctx : String) : Sink :=
  { path :=
      if enable_file_rotation then
        log_dir ++ "/" ++ ctx ++ "_error_\x7btime:YYYY-MM-DD\x7d.log"
      else
        log_dir ++ "/" ++ ctx ++ "_error.log",
    levelMin := levelNo "ERROR",
    rotation := rotation,
    retention := toString retention_days ++ " days",
    filter := .serviceError ctx,
    isFile := true }

/-- The `contexts_to_create` list of `setup_logging`: the normalized
service type, plus `scheduler` when the service type is API (api mode runs
an embedded scheduler). -/
def contextsToCreate (s : ServiceContext) : List String :=
  let contexts := [s.value]
  if s = ServiceContext.api then contexts ++ [ServiceContext.scheduler.value]
  else contexts

/-- The parameters of `setup_logging`, with the Python defaults spelled
out at call sites. -/
structure SetupParams where
  log_level : String
  log_dir : Option String
  service_type : CtxArg
  enable_file_rotation : Bool
  rotation_time : String
  retention_days : Nat
  rotation_size : String
  enable_console : Bool
deriving DecidableEq

/-- `setup_logging`: uppercase the level, default the directory, pick the
rotation policy, normalize the service type, remove every existing sink,
record the global config, bind the context store's service to the service
type, then install the console sink (if enabled) and, for each context to
create, an INFO-tier and an ERROR-tier file sink.  Filesystem effects
(`os.makedirs`) and the final `logger.info` emission carry no sink state
and are not modelled. -/
def setup_logging (p : SetupParams) (_sys : LogSystem) (st : Ctx) :
    LogSystem × Ctx :=
  let log_level := p.log_level.toUpper
  let log_dir := p.log_dir.getD "logs"
  let rotation := if p.enable_file_rotation then p.rotation_time else p.rotation_size
  let service_type_enum := toServiceContext p.service_type
  -- logger.remove(): drop all sinks
  let config : LogConfig :=
    { log_dir := log_dir, rotation := rotation,
      retention_days := p.retention_days,
      file_format := fileFormatTemplate, initialized := true }
  let st := set_service_context (.ofCtx service_type_enum) st
  let consoleSinks : List Sink :=
    if p.enable_console then
      [{ path := "<console>", levelMin := levelNo log_level,
         rotation := "", retention := "", filter := .nofilter,
         isFile := false }]
    else []
  let fileSinks :=
    (contextsToCreate service_type_enum).flatMap fun ctx =>
      [infoFileSink log_level log_dir p.enable_file_rotation rotation
          p.retention_days ctx,
        errorFileSink log_dir p.enable_file_rotation rotation
          p.retention_days ctx]
  ({ sinks := consoleSinks ++ fileSinks, config := config }, st)

/-- The sink `register_log_sink` installs. -/
def registeredSink (name : String) (filter_key : Option String)
    (level : String) (cfg : LogConfig) : Sink :=
  { path := cfg.log_dir ++ "/" ++ name ++ "_\x7btime:YYYY-MM-DD\x7d.log",
    levelMin := levelNo level,
    rotation := cfg.rotation,
    retention := toString cfg.retention_days ++ " days",
    filter := match filter_key with
      | some k => .key k
      | none => .nofilter,
    isFile := true }

/-- `register_log_sink`: raise `RuntimeError` when the system is not
initialized, otherwise append one file sink gated by `filter_key` (when
given). -/
def register_log_sink (name : String) (filter_key : Option String)
    (level : String) (sys : LogSystem) : Except String LogSystem :=
  if !sys.config.initialized then
    .error "请先调用 setup_logging() 初始化日志系统"
  else
    .ok { sys with
      sinks := sys.sinks ++ [registeredSink name filter_key level sys.config] }

/-- The patcher `setup_logging` configures: before any filter runs, update
the record's extra dict with the current trace id (generating one if
absent) and the current service context's string value; `fresh` is the
128-bit draw the random source would produce if a trace id is generated. -/
def patcher (fresh : Nat) (st : Ctx) (record : Record) : Record × Ctx :=
  let (tid, st) := get_trace_id fresh st
  ({ record with
      extra := extraSet (extraSet record.extra "trace_id" (.str tid))
        "service" (.str (get_service_context st).value) },
    st)

/-- `"\x7blevel: <8\x7d"`: Python format alignment `<` is LEFT alignment,
so the level name is padded on the RIGHT with spaces to width 8. -/
def padAlignLeft (s : String) (w : Nat) : String :=
  s ++ String.mk (List.replicate (w - s.length) ' ')

/-- The string value a stamped record carries under an extra key (its
trace id when `k` is `"trace_id"`). -/
def extraStrD (e : Extra) (k : String) : String :=
  match e.lookup k with
  | some (.str s) => s
  | some (.bool b) => if b then "True" else "False"
  | none => ""

/-- Rendering of a record under the `file_format` template of the source:
`time | level (left-ALIGNED, width 8) | name:function:line | trace_id -
message`. -/
def renderFileFormat (r : Record) : String :=
  r.time ++ " | " ++ padAlignLeft r.level.lname 8 ++ " | "
    ++ r.name ++ ":" ++ r.function ++ ":" ++ toString r.line ++ " | "
    ++ extraStrD r.extra "trace_id" ++ " - " ++ r.message

/-- Rendering as claim C9 words the format: the level name padded ON THE
LEFT (i.e. right-aligned) to width 8.  This definition follows the claim's
words, to be compared with `renderFileFormat`, which follows the source. -/
def renderFileFormatClaimed (r : Record) : String :=
  r.time ++ " | "
    ++ (String.mk (List.replicate (8 - r.level.lname.length) ' ') ++ r.level.lname)
    ++ " | "
    ++ r.name ++ ":" ++ r.function ++ ":" ++ toString r.line ++ " | "
    ++ extraStrD r.extra "trace_id" ++ " - " ++ r.message

/-- A concrete stamped record used to separate the two renderings. -/
def sampleRecord : Record :=
  { time := "2024-01-01 00:00:00", level := .INFO, name := "m",
    function := "f", line := 1, message := "hello",
    extra := [("trace_id", .str "tid0"), ("service", .str "api")] }

/-- The Python default arguments of `setup_logging`. -/
def defaultSetupParams : SetupParams :=
  { log_level := "INFO", log_dir := none, service_type := .ofCtx .api,
    enable_file_rotation := true, rotation_time := "00:00",
    retention_days := 7, rotation_size := "100 MB", enable_console := true }

/-- `setup_logging` defaults with `service_type="worker"`. -/
def workerSetupParams : SetupParams :=
  { defaultSetupParams with service_type := .ofStr "worker" }

/-- A concrete record as emitted by a caller, before patching. -/
def sampleBareRecord : Record :=
  { time := "2024-01-01 00:00:00", level := .WARNING, name := "svc",
    function := "op", line := 3, message := "careful",
    extra := [("user_id", .str "u1")] }

/-- A concrete record stamped with the scheduler context. -/
def sampleSchedRecord : Record :=
  { time := "2024-01-01 00:00:00", level := .INFO, name := "jobs",
    function := "run", line := 12, message := "tick",
    extra := [("trace_id", .str "tid1"), ("service", .str "scheduler")] }

/-- `setup_logging` as a step on the joint state, for iteration. -/
def setupStep (p : SetupParams) (x : LogSystem × Ctx) : LogSystem × Ctx :=
  setup_logging p x.1 x.2

/-- Number of active file sinks routed to context `c` (the INFO-tier and
ERROR-tier file sinks whose filter matches `c`). -/
def contextFileSinkCount (sys : LogSystem) (c : String) : Nat :=
  (sys.sinks.filter fun snk =>
    snk.isFile && (decide (snk.filter = SinkFilter.serviceInfo c)
      || decide (snk.filter = SinkFilter.serviceError c))).length

/-- A logical task (one async task / request / job execution). -/
abbrev TaskId := Nat

/-- One context-store operation a task can perform. -/
inductive CtxOp where
  | setServiceOp (context : String)
  | setTraceOp (trace_id : String)
  | getTraceOp (fresh : Nat)
deriving DecidableEq

/-- Effect of one operation on the executing task's own slot. -/
def applyCtxOp : CtxOp → Ctx → Ctx
  | .setServiceOp context, st => set_service_context (.ofStr context) st
  | .setTraceOp trace_id, st => set_trace_id trace_id st
  | .getTraceOp fresh, st => (get_trace_id fresh st).2

/-- The whole process's context state: one `Ctx` slot per logical task.
This models `contextvars.ContextVar`: a get/set executed inside a task
reads/writes only that task's own slot. -/
def GlobalCtx := TaskId → Ctx

/-- Task `t` performs `op`: only `t`'s slot changes. -/
def stepTask (t : TaskId) (op : CtxOp) (g : GlobalCtx) : GlobalCtx :=
  fun u => if u = t then applyCtxOp op (g u) else g u

/-- Run an interleaved program: a list of (task, operation) pairs in
global execution order. -/
def runOps : List (TaskId × CtxOp) → GlobalCtx → GlobalCtx
  | [], g => g
  | (t, op) :: rest, g => runOps rest (stepTask t op g)

/-- Run a sequence of operations on one task's slot alone. -/
def runLocal : List CtxOp → Ctx → Ctx
  | [], st => st
  | op :: rest, st => runLocal rest (applyCtxOp op st)

/-- The subsequence of an interleaved program executed by task `t`. -/
def taskOps (t : TaskId) (prog : List (TaskId × CtxOp)) : List CtxOp :=
  (prog.filter fun q => decide (q.1 = t)).map Prod.snd

/-! ### Helper lemmas -/

theorem hexChars_length (n w : Nat) : (hexChars n w).length = w := by
  induction w generalizing n with
  | zero => rfl
  | succ w ih => simp [hexChars, ih]

theorem uuidStr_length (n : Nat) : (uuidStr n).length = 36 := by
  simp [uuidStr, String.length, hexChars_length]

theorem uuidStr_ne_empty (n : Nat) : uuidStr n ≠ "" := by
  intro h
  have h36 := uuidStr_length n
  rw [h] at h36
  simp at h36

/-- Reading back the key just written by `extraSet`. -/
theorem lookup_extraSet_self (e : Extra) (k : String) (v : ExtraVal) :
    (extraSet e k v).lookup k = some v := by
  induction e with
  | nil => simp [extraSet, List.lookup_cons]
  | cons p t ih =>
    obtain ⟨a, b⟩ := p
    by_cases h : a = k
    · subst h
      simp [extraSet, List.lookup_cons]
    · simp [extraSet, h, List.lookup_cons, beq_false_of_ne (Ne.symm h), ih]

/-- `extraSet` leaves every other key's binding unchanged. -/
theorem lookup_extraSet_ne (e : Extra) (k k2 : String) (v : ExtraVal)
    (h : k2 ≠ k) : (extraSet e k v).lookup k2 = e.lookup k2 := by
  induction e with
  | nil => simp [extraSet, List.lookup_cons, beq_false_of_ne h]
  | cons p t ih =>
    obtain ⟨a, b⟩ := p
    by_cases ha : a = k
    · subst ha
      simp [extraSet, List.lookup_cons, beq_false_of_ne h]
    · simp [extraSet, ha, List.lookup_cons, ih]

theorem lname_eq_error_iff (l : Level) : l.lname = "ERROR" ↔ l = .ERROR := by
  cases l <;> simp [Level.lname]

theorem lname_eq_critical_iff (l : Level) : l.lname = "CRITICAL" ↔ l = .CRITICAL := by
  cases l <;> simp [Level.lname]

theorem levelNo_error_le_iff (l : Level) :
    levelNo "ERROR" ≤ l.no ↔ l = .ERROR ∨ l = .CRITICAL := by
  cases l <;> simp [levelNo, Level.no]

/-! ### Claim theorems -/

/-- C4: in a scope with no trace id set, the first `get_trace_id` call
generates a fresh random UUID (a 36-character string), stores it and
returns it; every later call in the scope returns the same string; and
after `set_trace_id t` with non-empty `t`, `get_trace_id` returns `t`. -/
theorem c4_get_trace_id_lazy (st : Ctx) (fresh fresh2 : Nat) :
    (st.traceId = "" →
      (get_trace_id fresh st).1 = uuidStr fresh
      ∧ ((get_trace_id fresh st).1).length = 36
      ∧ ((get_trace_id fresh st).2).traceId = (get_trace_id fresh st).1
      ∧ get_trace_id fresh2 (get_trace_id fresh st).2 =
          ((get_trace_id fresh st).1, (get_trace_id fresh st).2))
    ∧ (∀ t : String, t ≠ "" → (get_trace_id fresh (set_trace_id t st)).1 = t) := by
  constructor
  · intro h
    simp [get_trace_id, h, uuidStr_length, uuidStr_ne_empty]
  · intro t ht
    simp [get_trace_id, set_trace_id, ht]

theorem c4_witness :
    ((Ctx.initial).traceId = ""
      ∧ ((get_trace_id 5 Ctx.initial).1 = uuidStr 5
        ∧ ((get_trace_id 5 Ctx.initial).1).length = 36
        ∧ ((get_trace_id 5 Ctx.initial).2).traceId = (get_trace_id 5 Ctx.initial).1
        ∧ get_trace_id 7 (get_trace_id 5 Ctx.initial).2 =
            ((get_trace_id 5 Ctx.initial).1, (get_trace_id 5 Ctx.initial).2)))
    ∧ ("abc" ≠ "" ∧ (get_trace_id 5 (set_trace_id "abc" Ctx.initial)).1 = "abc") :=
  ⟨⟨rfl, (c4_get_trace_id_lazy Ctx.initial 5 7).1 rfl⟩,
    ⟨by decide, (c4_get_trace_id_lazy Ctx.initial 5 7).2 "abc" (by decide)⟩⟩

/-- C5: service-context normalization is total: the legacy alias `app`
maps to `api`, valid values map to their context, every unrecognized
string falls back to `api`, and `set_service_context` followed by
`get_service_context` yields the normalized value. -/
theorem c5_normalization_total (s : String) (st : Ctx) :
    (toServiceContext (.ofStr "app") = .api)
    ∧ (toServiceContext (.ofStr "api") = .api
      ∧ toServiceContext (.ofStr "scheduler") = .scheduler
      ∧ toServiceContext (.ofStr "worker") = .worker)
    ∧ (pyLower (pyStrip s) ≠ "app" → pyLower (pyStrip s) ≠ "api" →
       pyLower (pyStrip s) ≠ "scheduler" → pyLower (pyStrip s) ≠ "worker" →
       toServiceContext (.ofStr s) = .api)
    ∧ (get_service_context (set_service_context (.ofStr s) st) =
        toServiceContext (.ofStr s)) := by
  refine ⟨by decide, ⟨by decide, by decide, by decide⟩, ?_, rfl⟩
  intro h1 h2 h3 h4
  simp [toServiceContext, serviceContextOfValue, h1, h2, h3, h4]

theorem c5_witness :
    (toServiceContext (.ofStr " WORKER ") = .worker
      ∧ get_service_context (set_service_context (.ofStr " WORKER ") Ctx.initial) =
          toServiceContext (.ofStr " WORKER "))
    ∧ (pyLower (pyStrip "bogus") ≠ "app"
      ∧ pyLower (pyStrip "bogus") ≠ "api"
      ∧ pyLower (pyStrip "bogus") ≠ "scheduler"
      ∧ pyLower (pyStrip "bogus") ≠ "worker"
      ∧ toServiceContext (.ofStr "bogus") = .api) :=
  ⟨⟨by decide,
      (c5_normalization_total " WORKER " Ctx.initial).2.2.2⟩,
    by decide, by decide, by decide, by decide,
    (c5_normalization_total "bogus" Ctx.initial).2.2.1
      (by decide) (by decide) (by decide) (by decide)⟩

/-- C10: `set_trace_id ""` returns the scope to the unset state: the next
`get_trace_id` does not return the empty string but generates, stores and
returns a fresh UUID; in general `get_trace_id` regenerates whenever the
stored value is empty. -/
theorem c10_empty_resets (st : Ctx) (fresh : Nat) :
    ((get_trace_id fresh (set_trace_id "" st)).1 = uuidStr fresh)
    ∧ ((get_trace_id fresh (set_trace_id "" st)).1 ≠ "")
    ∧ ((get_trace_id fresh (set_trace_id "" st)).2.traceId = uuidStr fresh)
    ∧ (st.traceId = "" → (get_trace_id fresh st).1 = uuidStr fresh) := by
  refine ⟨?_, ?_, ?_, ?_⟩
  · simp [get_trace_id, set_trace_id]
  · simp [get_trace_id, set_trace_id, uuidStr_ne_empty]
  · simp [get_trace_id, set_trace_id]
  · intro h
    simp [get_trace_id, h]

theorem c10_witness :
    ((get_trace_id 9 (set_trace_id "" (set_trace_id "old" Ctx.initial))).1 = uuidStr 9)
    ∧ ((Ctx.initial).traceId = ""
      ∧ (get_trace_id 9 Ctx.initial).1 = uuidStr 9) :=
  ⟨(c10_empty_resets (set_trace_id "old" Ctx.initial) 9).1,
    rfl, (c10_empty_resets Ctx.initial 9).2.2.2 rfl⟩

/-- C1: for every context `c` that `setup_logging` configures, the
INFO-tier file sink for `c` and the ERROR-tier file sink for `c` are both
installed; the INFO-tier sink's filter accepts a stamped record iff the
record's `extra["service"]` equals `c`, its level is neither ERROR nor
CRITICAL, and `extra["access"]` is not truthy; the ERROR-tier sink accepts
a stamped record iff `extra["service"]` equals `c` and the level is ERROR
or CRITICAL. -/
theorem c1_sink_filters (p : SetupParams) (sys : LogSystem) (st : Ctx)
    (c : String) (r : Record) (sv : String)
    (hc : c ∈ contextsToCreate (toServiceContext p.service_type))
    (hs : r.extra.lookup "service" = some (ExtraVal.str sv)) :
    infoFileSink p.log_level.toUpper (p.log_dir.getD "logs")
        p.enable_file_rotation
        (if p.enable_file_rotation then p.rotation_time else p.rotation_size)
        p.retention_days c ∈ (setup_logging p sys st).1.sinks
    ∧ errorFileSink (p.log_dir.getD "logs") p.enable_file_rotation
        (if p.enable_file_rotation then p.rotation_time else p.rotation_size)
        p.retention_days c ∈ (setup_logging p sys st).1.sinks
    ∧ ((infoFileSink p.log_level.toUpper (p.log_dir.getD "logs")
        p.enable_file_rotation
        (if p.enable_file_rotation then p.rotation_time else p.rotation_size)
        p.retention_days c).filter.accepts r = true ↔
        (sv = c ∧ r.level ≠ .ERROR ∧ r.level ≠ .CRITICAL
          ∧ extraTruthy r.extra "access" = false))
    ∧ ((errorFileSink (p.log_dir.getD "logs") p.enable_file_rotation
        (if p.enable_file_rotation then p.rotation_time else p.rotation_size)
        p.retention_days c).accepts r = true ↔
        (sv = c ∧ (r.level = .ERROR ∨ r.level = .CRITICAL))) := by
  refine ⟨?_, ?_, ?_, ?_⟩
  · simp only [setup_logging, List.mem_append, List.mem_flatMap]
    exact Or.inr ⟨c, hc, by simp⟩
  · simp only [setup_logging, List.mem_append, List.mem_flatMap]
    exact Or.inr ⟨c, hc, by simp⟩
  · simp [infoFileSink, SinkFilter.accepts, extraEqStr, hs, ExtraVal.eqStr,
      lname_eq_error_iff, lname_eq_critical_iff, and_assoc]
  · simp [errorFileSink, Sink.accepts, SinkFilter.accepts, extraEqStr, hs,
      ExtraVal.eqStr, levelNo_error_le_iff]
    tauto

theorem c1_witness :
    ("scheduler" ∈ contextsToCreate
        (toServiceContext defaultSetupParams.service_type)
      ∧ (sampleSchedRecord).extra.lookup "service" =
          some (ExtraVal.str "scheduler"))
    ∧ ((infoFileSink "INFO" "logs" true "00:00" 7 "scheduler").filter.accepts
          sampleSchedRecord = true ↔
        ("scheduler" = "scheduler" ∧ sampleSchedRecord.level ≠ .ERROR
          ∧ sampleSchedRecord.level ≠ .CRITICAL
          ∧ extraTruthy sampleSchedRecord.extra "access" = false))
    ∧ ((errorFileSink "logs" true "00:00" 7 "worker").filter.accepts
          sampleSchedRecord = false) :=
  ⟨⟨by decide, by decide⟩,
    (c1_sink_filters defaultSetupParams LogSystem.initial Ctx.initial
      "scheduler" sampleSchedRecord "scheduler" (by decide) (by decide)).2.2.1,
    by decide⟩

/-- C6: `setup_logging` creates the INFO/ERROR file-sink pair for exactly
the normalized service type, plus the pair for `scheduler` when the
service type normalizes to `api` (four file sinks in total); in scheduler
or worker mode only that one context's pair exists. -/
theorem c6_contexts_created (p : SetupParams) (sys : LogSystem) (st : Ctx) :
    (toServiceContext p.service_type = .api →
      contextsToCreate (toServiceContext p.service_type) = ["api", "scheduler"]
      ∧ contextFileSinkCount (setup_logging p sys st).1 "api" = 2
      ∧ contextFileSinkCount (setup_logging p sys st).1 "scheduler" = 2
      ∧ ((setup_logging p sys st).1.sinks.filter fun snk => snk.isFile).length = 4)
    ∧ (toServiceContext p.service_type ≠ .api →
      contextsToCreate (toServiceContext p.service_type) =
        [(toServiceContext p.service_type).value]
      ∧ contextFileSinkCount (setup_logging p sys st).1
          (toServiceContext p.service_type).value = 2
      ∧ ((setup_logging p sys st).1.sinks.filter fun snk => snk.isFile).length = 2) := by
  cases h : toServiceContext p.service_type with
  | api =>
    refine ⟨fun _ => ⟨by simp [contextsToCreate, h, ServiceContext.value], ?_, ?_, ?_⟩,
      fun hne => absurd rfl hne⟩ <;>
      cases hc : p.enable_console <;>
        simp [setup_logging, contextFileSinkCount, contextsToCreate, h, hc,
          infoFileSink, errorFileSink, List.filter, ServiceContext.value]
  | scheduler =>
    refine ⟨fun hne => by simp at hne,
        fun _ => ⟨by simp [contextsToCreate, h, ServiceContext.value], ?_, ?_⟩⟩ <;>
      cases hc : p.enable_console <;>
        simp [setup_logging, contextFileSinkCount, contextsToCreate, h, hc,
          infoFileSink, errorFileSink, List.filter, ServiceContext.value]
  | worker =>
    refine ⟨fun hne => by simp at hne,
        fun _ => ⟨by simp [contextsToCreate, h, ServiceContext.value], ?_, ?_⟩⟩ <;>
      cases hc : p.enable_console <;>
        simp [setup_logging, contextFileSinkCount, contextsToCreate, h, hc,
          infoFileSink, errorFileSink, List.filter, ServiceContext.value]

theorem c6_witness :
    (toServiceContext defaultSetupParams.service_type = .api
      ∧ contextFileSinkCount
          (setup_logging defaultSetupParams LogSystem.initial Ctx.initial).1
          "api" = 2
      ∧ contextFileSinkCount
          (setup_logging defaultSetupParams LogSystem.initial Ctx.initial).1
          "scheduler" = 2)
    ∧ (toServiceContext (CtxArg.ofStr "worker") ≠ .api
      ∧ ((setup_logging workerSetupParams LogSystem.initial Ctx.initial).1.sinks.filter
          fun snk => snk.isFile).length = 2) :=
  ⟨⟨rfl,
      ((c6_contexts_created defaultSetupParams LogSystem.initial Ctx.initial).1
        rfl).2.1,
      ((c6_contexts_created defaultSetupParams LogSystem.initial Ctx.initial).1
        rfl).2.2.1⟩,
    ⟨by decide,
      ((c6_contexts_created workerSetupParams LogSystem.initial Ctx.initial).2
        (by decide)).2.2⟩⟩

/-- Re-running `setup_logging` with the same parameters from the state a
first run produced reproduces that state exactly: the sink list is
cleared before the new sinks are installed, and the config and context
rebindings are functions of the parameters alone. -/
theorem setupStep_fixed (p : SetupParams) (x : LogSystem × Ctx) :
    setupStep p (setupStep p x) = setupStep p x := rfl

/-- C2: `setup_logging` is idempotent on the sink set: N ≥ 1 runs with the
same parameters leave exactly the state — in particular the same number of
active file sinks per configured context — as a single run. -/
theorem c2_setup_idempotent (p : SetupParams) (x : LogSystem × Ctx)
    (N : Nat) (hN : 1 ≤ N) :
    (setupStep p)^[N] x = setupStep p x
    ∧ ∀ c, contextFileSinkCount ((setupStep p)^[N] x).1 c =
        contextFileSinkCount (setupStep p x).1 c := by
  obtain ⟨m, rfl⟩ : ∃ m, N = m + 1 := ⟨N - 1, by omega⟩
  have hfix : (setupStep p)^[m + 1] x = setupStep p x := by
    rw [Function.iterate_succ_apply]
    exact Function.iterate_fixed (setupStep_fixed p x) m
  exact ⟨hfix, fun c => by rw [hfix]⟩

theorem c2_witness :
    1 ≤ 3
    ∧ (setupStep defaultSetupParams)^[3] (LogSystem.initial, Ctx.initial) =
        setupStep defaultSetupParams (LogSystem.initial, Ctx.initial)
    ∧ contextFileSinkCount
        ((setupStep defaultSetupParams)^[3] (LogSystem.initial, Ctx.initial)).1
        "api" =
      contextFileSinkCount
        (setupStep defaultSetupParams (LogSystem.initial, Ctx.initial)).1
        "api" :=
  ⟨by decide,
    (c2_setup_idempotent defaultSetupParams (LogSystem.initial, Ctx.initial) 3
      (by decide)).1,
    (c2_setup_idempotent defaultSetupParams (LogSystem.initial, Ctx.initial) 3
      (by decide)).2 "api"⟩

/-- C3: `register_log_sink` raises the "not initialized" `RuntimeError`
exactly when no `setup_logging` call has completed (the flag starts false
and every completed setup sets it), and in the error case installs
nothing; once initialized it appends exactly one file sink, whose filter,
when a `filter_key` is given, accepts a record iff that key is explicitly
truthy in the record's extra-attributes. -/
theorem c3_register_log_sink (name : String) (filter_key : Option String)
    (level : String) (sys : LogSystem) :
    (sys.config.initialized = false →
      register_log_sink name filter_key level sys =
        .error "请先调用 setup_logging() 初始化日志系统")
    ∧ LogSystem.initial.config.initialized = false
    ∧ (∀ p sys0 st, (setup_logging p sys0 st).1.config.initialized = true)
    ∧ (sys.config.initialized = true →
        register_log_sink name filter_key level sys =
          .ok { sys with sinks :=
            sys.sinks ++ [registeredSink name filter_key level sys.config] }
        ∧ ∀ k, filter_key = some k → ∀ r : Record,
            ((registeredSink name filter_key level sys.config).filter.accepts r
              = true ↔ extraTruthy r.extra k = true)) := by
  refine ⟨fun h => by simp [register_log_sink, h], rfl, fun p sys0 st => rfl, fun h => ⟨?_, ?_⟩⟩
  · simp [register_log_sink, h]
  · intro k hk r
    subst hk
    simp [registeredSink, SinkFilter.accepts]

theorem c3_witness :
    (LogSystem.initial.config.initialized = false
      ∧ register_log_sink "access" (some "access") "INFO" LogSystem.initial =
          .error "请先调用 setup_logging() 初始化日志系统")
    ∧ ((setup_logging defaultSetupParams LogSystem.initial Ctx.initial).1.config.initialized = true
      ∧ ∀ r : Record,
          ((registeredSink "access" (some "access") "INFO"
              (setup_logging defaultSetupParams LogSystem.initial Ctx.initial).1.config).filter.accepts r
            = true ↔ extraTruthy r.extra "access" = true)) :=
  ⟨⟨rfl,
      (c3_register_log_sink "access" (some "access") "INFO" LogSystem.initial).1 rfl⟩,
    ⟨rfl,
      ((c3_register_log_sink "access" (some "access") "INFO"
          (setup_logging defaultSetupParams LogSystem.initial Ctx.initial).1).2.2.2
        rfl).2 "access" rfl⟩⟩

/-- C7: the patcher changes nothing in the record except the
extra-attributes, into which it writes exactly the keys `trace_id` (the
scope's trace id, generated if absent) and `service` (the current service
context's string value); every other field and extra key is unchanged. -/
theorem c7_patcher_frame (fresh : Nat) (st : Ctx) (r : Record) :
    (patcher fresh st r).1.time = r.time
    ∧ (patcher fresh st r).1.level = r.level
    ∧ (patcher fresh st r).1.name = r.name
    ∧ (patcher fresh st r).1.function = r.function
    ∧ (patcher fresh st r).1.line = r.line
    ∧ (patcher fresh st r).1.message = r.message
    ∧ (patcher fresh st r).1.extra.lookup "trace_id" =
        some (.str (get_trace_id fresh st).1)
    ∧ (patcher fresh st r).1.extra.lookup "service" =
        some (.str (get_service_context st).value)
    ∧ (∀ k, k ≠ "trace_id" → k ≠ "service" →
        (patcher fresh st r).1.extra.lookup k = r.extra.lookup k) := by
  have hsvc : get_service_context (get_trace_id fresh st).2 =
      get_service_context st := by
    simp only [get_trace_id, get_service_context]
    split <;> rfl
  have hp : (patcher fresh st r).1.extra =
      extraSet (extraSet r.extra "trace_id" (.str (get_trace_id fresh st).1))
        "service" (.str (get_service_context (get_trace_id fresh st).2).value) := rfl
  refine ⟨rfl, rfl, rfl, rfl, rfl, rfl, ?_, ?_, ?_⟩
  · rw [hp, lookup_extraSet_ne _ _ _ _ (by decide), lookup_extraSet_self]
  · rw [hp, lookup_extraSet_self, hsvc]
  · intro k hk1 hk2
    rw [hp, lookup_extraSet_ne _ _ _ _ hk2, lookup_extraSet_ne _ _ _ _ hk1]

theorem c7_witness :
    (patcher 5 Ctx.initial sampleBareRecord).1.message = sampleBareRecord.message
    ∧ (patcher 5 Ctx.initial sampleBareRecord).1.extra.lookup "service" =
        some (.str (get_service_context Ctx.initial).value)
    ∧ ("user_id" ≠ "trace_id" ∧ "user_id" ≠ "service"
      ∧ (patcher 5 Ctx.initial sampleBareRecord).1.extra.lookup "user_id" =
          sampleBareRecord.extra.lookup "user_id") :=
  ⟨(c7_patcher_frame 5 Ctx.initial sampleBareRecord).2.2.2.2.2.1,
    (c7_patcher_frame 5 Ctx.initial sampleBareRecord).2.2.2.2.2.2.2.1,
    by decide, by decide,
    (c7_patcher_frame 5 Ctx.initial sampleBareRecord).2.2.2.2.2.2.2.2 "user_id"
      (by decide) (by decide)⟩

/-- Projection: the state an interleaved program leaves in task `t`'s slot
depends only on the subsequence of operations task `t` itself executed. -/
theorem runOps_eq_runLocal (prog : List (TaskId × CtxOp)) (g : GlobalCtx)
    (t : TaskId) : runOps prog g t = runLocal (taskOps t prog) (g t) := by
  induction prog generalizing g with
  | nil => rfl
  | cons q rest ih =>
    obtain ⟨u, op⟩ := q
    rw [runOps, ih]
    by_cases h : u = t
    · subst h
      have hstep : stepTask u op g u = applyCtxOp op (g u) := by simp [stepTask]
      simp [taskOps, List.filter_cons, runLocal, hstep]
    · have hstep : stepTask u op g t = g t := by simp [stepTask, Ne.symm h]
      simp [taskOps, List.filter_cons, h, hstep]

/-- C8: the context store is scoped per logical task: in any interleaved
execution in which task `t1` sets service context `c1` and trace id `id1`
and a different task `t2` sets `c2` and `id2`, each task's subsequent
`get_service_context`/`get_trace_id` observe only its own values. -/
theorem c8_task_isolation (prog : List (TaskId × CtxOp)) (g : GlobalCtx)
    (t1 t2 : TaskId) (c1 c2 id1 id2 : String) (fresh : Nat)
    (_hne : t1 ≠ t2)
    (h1 : taskOps t1 prog = [.setServiceOp c1, .setTraceOp id1])
    (h2 : taskOps t2 prog = [.setServiceOp c2, .setTraceOp id2])
    (hid1 : id1 ≠ "") (hid2 : id2 ≠ "") :
    get_service_context (runOps prog g t1) = toServiceContext (.ofStr c1)
    ∧ (get_trace_id fresh (runOps prog g t1)).1 = id1
    ∧ get_service_context (runOps prog g t2) = toServiceContext (.ofStr c2)
    ∧ (get_trace_id fresh (runOps prog g t2)).1 = id2 := by
  rw [runOps_eq_runLocal prog g t1, h1, runOps_eq_runLocal prog g t2, h2]
  refine ⟨rfl, ?_, rfl, ?_⟩
  · simp [runLocal, applyCtxOp, set_trace_id, set_service_context,
      get_trace_id, hid1]
  · simp [runLocal, applyCtxOp, set_trace_id, set_service_context,
      get_trace_id, hid2]

theorem c8_witness :
    ((0 : TaskId) ≠ 1
      ∧ taskOps 0 [(0, .setServiceOp "worker"), (1, .setServiceOp "scheduler"),
          (0, .setTraceOp "id-a"), (1, .setTraceOp "id-b")] =
        [.setServiceOp "worker", .setTraceOp "id-a"]
      ∧ "id-a" ≠ "" ∧ "id-b" ≠ "")
    ∧ get_service_context
        (runOps [(0, .setServiceOp "worker"), (1, .setServiceOp "scheduler"),
            (0, .setTraceOp "id-a"), (1, .setTraceOp "id-b")]
          (fun _ => Ctx.initial) 0) = toServiceContext (.ofStr "worker")
    ∧ (get_trace_id 5
        (runOps [(0, .setServiceOp "worker"), (1, .setServiceOp "scheduler"),
            (0, .setTraceOp "id-a"), (1, .setTraceOp "id-b")]
          (fun _ => Ctx.initial) 1)).1 = "id-b" :=
  ⟨⟨by decide, by decide, by decide, by decide⟩,
    (c8_task_isolation
      [(0, .setServiceOp "worker"), (1, .setServiceOp "scheduler"),
        (0, .setTraceOp "id-a"), (1, .setTraceOp "id-b")]
      (fun _ => Ctx.initial) 0 1 "worker" "scheduler" "id-a" "id-b" 5
      (by decide) (by decide) (by decide) (by decide) (by decide)).1,
    (c8_task_isolation
      [(0, .setServiceOp "worker"), (1, .setServiceOp "scheduler"),
        (0, .setTraceOp "id-a"), (1, .setTraceOp "id-b")]
      (fun _ => Ctx.initial) 0 1 "worker" "scheduler" "id-a" "id-b" 5
      (by decide) (by decide) (by decide) (by decide) (by decide)).2.2.2⟩

/-- C9 counterexample: the claim reads the `\x7blevel: <8\x7d` directive as
padding the level name ON THE LEFT to width 8; Python's `<` alignment is
left alignment, which pads on the right, so the two renderings differ on a
concrete INFO record. -/
theorem c9_counterexample :
    renderFileFormat sampleRecord ≠ renderFileFormatClaimed sampleRecord := by
  decide

/-- C9 amended: the default file-sink record format is timestamp, the
level name LEFT-ALIGNED (padded on the right) to width 8, then
`module:function:line`, the trace id, a " - " separator and the message,
with " | " separating the leading fields; the padded level field has
width 8 (every standard level name fits). -/
theorem c9_file_format_amended (r : Record) :
    renderFileFormat r =
      r.time ++ " | "
        ++ (r.level.lname
          ++ String.mk (List.replicate (8 - r.level.lname.length) ' '))
        ++ " | "
        ++ r.name ++ ":" ++ r.function ++ ":" ++ toString r.line ++ " | "
        ++ extraStrD r.extra "trace_id" ++ " - " ++ r.message
    ∧ (padAlignLeft r.level.lname 8).length = 8 := by
  refine ⟨rfl, ?_⟩
  cases r.level <;> decide

end FoundationKit
